import Mathlib

/-!
Verification development for the `react-native-pdf-editor-architecture`
repository: a shallow embedding of the renderer bridge protocol
(`src/application/events/RendererMessages.ts`) and of the document session
controller (`src/application/AttachedDocEditorController.ts`), together with
theorems settling the specification claims.

Conventions of the embedding:
* A JavaScript number is modelled as `JsNum := Option ℚ`, with `none`
  standing for `NaN` (the only non-finite value the code under study can
  produce, via `Number(...)` coercion of non-numeric data).
* `JSON.parse` is a platform builtin, not repository code; its outcome is
  modelled as an `Except Unit Json` input (an exception, or a parsed value).
  JSON arrays never occur in the renderer protocol and are omitted from the
  `Json` universe of the model.
* Asynchronous methods are modelled as pure functions from a controller
  state (plus an environment giving the outcome of each external port call
  made during the operation) to a result holding the new state, the list of
  observable external effects, and the exception, if any, the method ends
  with.  A thrown exception leaves the state mutations already performed in
  place, exactly as field assignments on `this` do in TypeScript.
-/

namespace PdfEditor

/-- A JavaScript number: `none` models `NaN`, `some q` a finite value. -/
abbrev JsNum : Type := Option ℚ

/-- The universe of values `JSON.parse` can return, restricted to the shapes
the renderer protocol uses (arrays never occur in the protocol). Objects are
association lists with distinct keys (as produced by `JSON.parse`). -/
inductive Json where
  | null : Json
  | bool (b : Bool) : Json
  | num (q : ℚ) : Json
  | str (s : String) : Json
  | obj (kvs : List (String × Json)) : Json

/-- JavaScript truthiness of a parsed JSON value (`!data` in the source):
`null`, `false`, `0` and `""` are falsy. -/
def jsFalsy : Json → Bool
  | Json.null => true
  | Json.bool b => !b
  | Json.num q => q = 0
  | Json.str s => s = ""
  | Json.obj _ => false

/-- Property access `data.k`: `none` models `undefined` (missing key, or a
non-object receiver — none of the protocol's keys exist on primitives). -/
def jsGet : Json → String → Option Json
  | Json.obj kvs, k => (kvs.find? (fun kv => kv.1 = k)).map (fun kv => kv.2)
  | _, _ => none

/-- Digit string to natural number (little helper for `jsStringToNumber`). -/
def natFromDigits (l : List Char) : Nat :=
  l.foldl (fun acc c => acc * 10 + (c.toNat - 48)) 0

/-- `Number(string)` coercion, on the decimal fragment of ECMAScript
`ToNumber` (optional sign, digits, optional fraction; whitespace trimmed;
empty string is `0`). Strings outside this fragment coerce to `NaN`; the
renderer protocol only ever carries plain decimal literals. -/
def jsStringToNumber (s : String) : JsNum :=
  let t := s.trim
  if t = "" then some 0
  else
    let sg : ℚ × List Char :=
      match t.toList with
      | '-' :: r => (-1, r)
      | '+' :: r => (1, r)
      | r => (1, r)
    let p := sg.2.span Char.isDigit
    match p.2 with
    | [] => if p.1.isEmpty then none else some (sg.1 * natFromDigits p.1)
    | '.' :: fr =>
      if fr.all Char.isDigit && !(p.1.isEmpty && fr.isEmpty) then
        some (sg.1 * ((natFromDigits p.1 : ℚ) + (natFromDigits fr : ℚ) / ((10 : ℚ) ^ fr.length)))
      else none
    | _ => none

/-- `Number(value)` coercion of a parsed JSON value: `null → 0`,
booleans → `0`/`1`, numbers unchanged, strings via the decimal fragment,
objects → `NaN`. -/
def jsToNumber : Json → JsNum
  | Json.null => some 0
  | Json.bool b => some (if b then 1 else 0)
  | Json.num q => some q
  | Json.str s => jsStringToNumber s
  | Json.obj _ => none

/-- `Number(data.k)`: a missing property (`undefined`) coerces to `NaN`. -/
def jsToNumberOpt : Option Json → JsNum
  | none => none
  | some j => jsToNumber j

/-- Inbound renderer events (`RendererInboundMessage` in
`src/application/events/RendererMessages.ts`). Numeric payloads are `JsNum`
because the parser coerces with `Number(...)`. -/
inductive RendererInboundMessage where
  | READY : RendererInboundMessage
  | PDF_DIMENSIONS (width height scale : JsNum) (rotation : Option JsNum) : RendererInboundMessage
  | RENDER_DONE : RendererInboundMessage
  | READY_FOR_OVERLAYS : RendererInboundMessage
  | DEBUG_PAGE_COUNT (pages : JsNum) : RendererInboundMessage
deriving DecidableEq

/-- Outbound renderer commands (`RendererOutboundCommand`). -/
inductive RendererOutboundCommand where
  | LOAD_PDF_BASE64 (base64 : String) : RendererOutboundCommand
  | SET_PAGE (pageNumber : ℚ) : RendererOutboundCommand
  | SET_SCALE (scale : ℚ) : RendererOutboundCommand
deriving DecidableEq

/-- `parseRendererInboundMessage` from
`src/application/events/RendererMessages.ts`, on the outcome of the
`JSON.parse` builtin (`Except.error` models the exception caught by the
source's `try`/`catch`, which yields `null`). -/
def parseRendererInboundMessage (parsed : Except Unit Json) : Option RendererInboundMessage :=
  match parsed with
  | Except.error _ => none
  | Except.ok data =>
    if jsFalsy data then none
    else
      match jsGet data "type" with
      | some (Json.str t) =>
        if t = "READY" then some RendererInboundMessage.READY
        else if t = "RENDER_DONE" then some RendererInboundMessage.RENDER_DONE
        else if t = "READY_FOR_OVERLAYS" then some RendererInboundMessage.READY_FOR_OVERLAYS
        else if t = "PDF_DIMENSIONS" then
          some (RendererInboundMessage.PDF_DIMENSIONS
            (jsToNumberOpt (jsGet data "width"))
            (jsToNumberOpt (jsGet data "height"))
            (jsToNumberOpt (jsGet data "scale"))
            (match jsGet data "rotation" with
             | none => none
             | some Json.null => none
             | some j => some (jsToNumber j)))
        else if t = "DEBUG_PAGE_COUNT" then
          some (RendererInboundMessage.DEBUG_PAGE_COUNT (jsToNumberOpt (jsGet data "pages")))
        else none
      | _ => none

/-- Whether a parsed JSON value passes the source's transport-level check
`data && typeof data.type === "string"`. -/
def hasStringType (data : Json) : Bool :=
  if jsFalsy data then false
  else
    match jsGet data "type" with
    | some (Json.str _) => true
    | _ => false

/-- The set of `type` tags the parser recognizes. -/
def recognizedType (t : String) : Bool :=
  t = "READY" || t = "RENDER_DONE" || t = "READY_FOR_OVERLAYS" ||
    t = "PDF_DIMENSIONS" || t = "DEBUG_PAGE_COUNT"

/-- `PercentRect` from `src/domain/geometry/Rect.ts`. -/
structure PercentRect where
  leftPct : ℚ
  topPct : ℚ
  widthPct : ℚ
  heightPct : ℚ
deriving DecidableEq

/-- `PixelRect` from `src/domain/geometry/Rect.ts`. -/
structure PixelRect where
  left : ℚ
  top : ℚ
  width : ℚ
  height : ℚ
deriving DecidableEq

/-- `FieldValue` from `src/domain/pdf/PdfField.ts`: `string | boolean | null`. -/
inductive FieldValue where
  | str (s : String) : FieldValue
  | bool (b : Bool) : FieldValue
  | null : FieldValue
deriving DecidableEq

/-- `PdfField` from `src/domain/pdf/PdfField.ts`. The `metadata` open map
(whose values are `unknown`-typed and never read or written by the
controller — object spreads carry it along unchanged) is not modelled. -/
structure PdfField where
  name : String
  type : String
  coordinates : List ℚ
  signatureCoordinates : Option (List ℚ) := none
  value : FieldValue
  page : ℚ
  isMemo : Option Bool := none
  isDate : Option Bool := none
  relativeCoordinates : Option PercentRect := none
  scaledCoordinates : Option PixelRect := none
deriving DecidableEq

/-- The controller's `viewport` record (set wholesale from a
`PDF_DIMENSIONS` message; components are `JsNum` because they come from
`Number(...)` coercion). -/
structure ViewportInfo where
  width : JsNum
  height : JsNum
  scale : JsNum
  rotation : Option JsNum
deriving DecidableEq

/-- `OpenPdfInstanceRequest` from `src/domain/pdf/PdfTypes.ts` (the fields
the controller reads). -/
structure OpenPdfInstanceRequest where
  fileName : String
  sheetId : ℚ
  pdfFolder : String
deriving DecidableEq

/-- `OpenPdfInstanceResult` from `src/domain/pdf/PdfTypes.ts`. -/
structure OpenPdfInstanceResult where
  localPath : String
  extractedFields : List PdfField
  template : List PdfField
deriving DecidableEq

/-- Signature targeting mode (`"single" | "all"`). -/
inductive SigMode where
  | single : SigMode
  | all : SigMode
deriving DecidableEq

/-- The mutable per-session state of `AttachedDocEditorController`
(`transport` records whether a renderer transport is attached). -/
structure ControllerState where
  transport : Bool
  fileName : Option String
  localPath : Option String
  pageNumber : ℚ
  scale : ℚ
  rendererReady : Bool
  overlaysVisible : Bool
  isDirty : Bool
  fields : List PdfField
  selectedFieldName : Option String
  viewport : Option ViewportInfo
  status : Option String
deriving DecidableEq

/-- The state of a freshly constructed controller. -/
def initialControllerState : ControllerState where
  transport := false
  fileName := none
  localPath := none
  pageNumber := 1
  scale := 1
  rendererReady := false
  overlaysVisible := false
  isDirty := false
  fields := []
  selectedFieldName := none
  viewport := none
  status := none

/-- Observable calls the controller makes on its external ports during one
operation (renderer transport sends, field-writer calls, overlay-gate
calls, and the refresh timer it schedules). -/
inductive ControllerEffect where
  | sentToTransport (serialized : RendererOutboundCommand) : ControllerEffect
  | writerWriteText (localPdfPath : String) (field : PdfField) (value : String) : ControllerEffect
  | writerWriteCheckbox (localPdfPath : String) (field : PdfField) (value : Bool) : ControllerEffect
  | writerWriteSignature (localPdfPath : String) (signatureBase64 : String)
      (mode : SigMode) (targetFieldName : Option String) : ControllerEffect
  | writerClearForm (localPdfPath : String) : ControllerEffect
  | templateStorePut (fileName : String) : ControllerEffect
  | gateMarkTick (msgType : String) : ControllerEffect
  | gateMarkRenderDone : ControllerEffect
  | gateMaskOverlays (reason : String) : ControllerEffect
  | gateRequestUnmask (reason : String) : ControllerEffect
  | scheduledRefreshUnmask : ControllerEffect
deriving DecidableEq

/-- Exceptions a controller operation can end with (the source throws
`Error` objects; these tags record the throw site). -/
inductive ControllerError where
  | openError : ControllerError
  | fieldNotFound (name : String) : ControllerError
  | noLocalPath : ControllerError
  | persistenceError : ControllerError
  | coordTransformError : ControllerError
  | readPdfError : ControllerError
deriving DecidableEq

/-- Result of one controller operation: the state after it, the external
effects it performed (in order), and the exception it ends with, if any. -/
structure OpResult where
  state : ControllerState
  effects : List ControllerEffect
  err : Option ControllerError
deriving DecidableEq

/-- Outcomes of the external port calls an operation may make.
`canShowOverlays` is the gate's answer at the (at most one) point the
operation queries it; the gate implementation itself is a port whose
timing policy lives outside this repository. `readPdfAsBase64` models the
redacted private file read (which may fail, e.g. on a filesystem error). -/
structure ControllerEnv where
  openResult : Except Unit OpenPdfInstanceResult
  readPdfAsBase64 : String → Except Unit String
  toPixelRect : PercentRect → ViewportInfo → Except Unit PixelRect
  writeOk : Except Unit Unit
  canShowOverlays : Bool

/-- `sendRendererCommand`: serialize and post the command, or silently drop
it when no transport is attached. -/
def sendRendererCommand (s : ControllerState) (cmd : RendererOutboundCommand) : List ControllerEffect :=
  if s.transport then [ControllerEffect.sentToTransport cmd] else []

/-- `loadIntoRenderer`: guarded no-op without transport / readiness /
local path; otherwise read the PDF as base64 (redacted private read, whose
outcome `env.readPdfAsBase64` supplies) and send `LOAD_PDF_BASE64`. -/
def loadIntoRenderer (env : ControllerEnv) (s : ControllerState) :
    List ControllerEffect × Option ControllerError :=
  if !s.transport then ([], none)
  else if !s.rendererReady then ([], none)
  else
    match s.localPath with
    | none => ([], none)
    | some p =>
      match env.readPdfAsBase64 p with
      | Except.error _ => ([], some ControllerError.readPdfError)
      | Except.ok base64 =>
        (sendRendererCommand s (RendererOutboundCommand.LOAD_PDF_BASE64 base64), none)

/-- `layerValues`: layer extracted values onto template fields by `name`.
The source builds a `Map` by iterating the extracted list (later entries
overwrite earlier ones), so the last extracted field of a given name wins. -/
def layerValues (template extracted : List PdfField) : List PdfField :=
  template.map (fun t =>
    match extracted.reverse.find? (fun f => f.name = t.name) with
    | some found => { t with value := found.value }
    | none => t)

/-- `recomputeScaledRectsIfPossible`: no-op without a viewport; otherwise map
every field with `relativeCoordinates` through the Coordinate Transform
port. The source assigns `this.fields` only after the whole `map` call
returns, so a throw from `toPixelRect` aborts the recomputation and leaves
`this.fields` entirely unchanged while the exception propagates. -/
def recomputeScaledRectsIfPossible (env : ControllerEnv) (s : ControllerState) :
    ControllerState × Option ControllerError :=
  match s.viewport with
  | none => (s, none)
  | some vp =>
    match s.fields.mapM (fun f =>
      match f.relativeCoordinates with
      | none => Except.ok f
      | some r =>
        (env.toPixelRect r vp).map (fun px => { f with scaledCoordinates := some px })) with
    | Except.error _ => (s, some ControllerError.coordTransformError)
    | Except.ok fs => ({ s with fields := fs }, none)

/-- `maskOverlaysForNavigation`: `overlayGate.maskOverlays(reason)` then
`overlaysVisible = false`. -/
def maskOverlaysForNavigation (s : ControllerState) (reason : String) :
    ControllerState × List ControllerEffect :=
  ({ s with overlaysVisible := false }, [ControllerEffect.gateMaskOverlays reason])

/-- `refreshRendererAfterSave`: mask immediately and schedule a single
future unmask request on the clock (the scheduled callback itself is a
separate later event, `refreshUnmaskCallback`). -/
def refreshRendererAfterSave (s : ControllerState) :
    ControllerState × List ControllerEffect :=
  ({ s with overlaysVisible := false },
    [ControllerEffect.gateMaskOverlays "refresh-after-save",
     ControllerEffect.scheduledRefreshUnmask])

/-- The clock callback scheduled by `refreshRendererAfterSave`:
`requestUnmask("refresh-complete")` then mirror `canShowOverlays()`. -/
def refreshUnmaskCallback (env : ControllerEnv) (s : ControllerState) : OpResult :=
  ⟨{ s with overlaysVisible := env.canShowOverlays },
    [ControllerEffect.gateRequestUnmask "refresh-complete"], none⟩

/-- `mustFindField` (returns the field, or `none` where the source throws
`Error("Field not found: ...")`). -/
def mustFindField (s : ControllerState) (name : String) : Option PdfField :=
  s.fields.find? (fun f => f.name = name)

/-- `attachRendererTransport`. -/
def attachRendererTransport (s : ControllerState) : ControllerState :=
  { s with transport := true }

/-- `openDocument`: open the instance, record `fileName`/`localPath`, store
the template, layer values, normalize (identity in the source), recompute
scaled rects, and kick the renderer load. Any throw is caught, sets the
error status, and is re-raised; mutations already made stay in place. -/
def openDocument (env : ControllerEnv) (req : OpenPdfInstanceRequest) (s : ControllerState) : OpResult :=
  let s0 := { s with status := some "Opening document…" }
  match env.openResult with
  | Except.error _ =>
    ⟨{ s0 with status := some "Error opening document" }, [], some ControllerError.openError⟩
  | Except.ok res =>
    let s1 := { s0 with
      fileName := some req.fileName
      localPath := some res.localPath
      fields := layerValues res.template res.extractedFields }
    let effs0 := [ControllerEffect.templateStorePut req.fileName]
    let r2 := recomputeScaledRectsIfPossible env s1
    match r2.2 with
    | some e => ⟨{ r2.1 with status := some "Error opening document" }, effs0, some e⟩
    | none =>
      let l := loadIntoRenderer env r2.1
      match l.2 with
      | some e => ⟨{ r2.1 with status := some "Error opening document" }, effs0 ++ l.1, some e⟩
      | none => ⟨{ r2.1 with status := some "Ready" }, effs0 ++ l.1, none⟩

/-- The `type` tag of a parsed inbound message (argument of `markTick`). -/
def msgTypeName : RendererInboundMessage → String
  | RendererInboundMessage.READY => "READY"
  | RendererInboundMessage.PDF_DIMENSIONS _ _ _ _ => "PDF_DIMENSIONS"
  | RendererInboundMessage.RENDER_DONE => "RENDER_DONE"
  | RendererInboundMessage.READY_FOR_OVERLAYS => "READY_FOR_OVERLAYS"
  | RendererInboundMessage.DEBUG_PAGE_COUNT _ => "DEBUG_PAGE_COUNT"

/-- `onRendererMessage`: parse, drop unparseable input, `markTick` every
parsed event, then dispatch. In the `READY` case the source fires
`void this.loadIntoRenderer()`, so a rejection of the load is not
propagated. In the `PDF_DIMENSIONS` case the viewport is replaced
wholesale before masking and recomputing; a throw from the Coordinate
Transform escapes the handler. -/
def onRendererMessage (env : ControllerEnv) (parsed : Except Unit Json) (s : ControllerState) : OpResult :=
  match parseRendererInboundMessage parsed with
  | none => ⟨s, [], none⟩
  | some msg =>
    let tick := ControllerEffect.gateMarkTick (msgTypeName msg)
    match msg with
    | RendererInboundMessage.READY =>
      let s1 := { s with rendererReady := true }
      let l := loadIntoRenderer env s1
      ⟨s1, tick :: l.1, none⟩
    | RendererInboundMessage.PDF_DIMENSIONS w h sc rot =>
      let s1 := { s with viewport := some ⟨w, h, sc, rot⟩, overlaysVisible := false }
      let r := recomputeScaledRectsIfPossible env s1
      ⟨r.1, [tick, ControllerEffect.gateMaskOverlays "dims-changed"], r.2⟩
    | RendererInboundMessage.RENDER_DONE =>
      ⟨{ s with overlaysVisible := env.canShowOverlays },
        [tick, ControllerEffect.gateMarkRenderDone,
         ControllerEffect.gateRequestUnmask "render-done"], none⟩
    | RendererInboundMessage.READY_FOR_OVERLAYS =>
      ⟨{ s with overlaysVisible := env.canShowOverlays },
        [tick, ControllerEffect.gateRequestUnmask "renderer-ready-for-overlays"], none⟩
    | RendererInboundMessage.DEBUG_PAGE_COUNT _ => ⟨s, [tick], none⟩

/-- `setPage`: clamp to `max(1, floor(n))`, mask, send `SET_PAGE`. -/
def setPage (n : ℚ) (s : ControllerState) : OpResult :=
  let p : ℚ := max 1 (⌊n⌋ : ℚ)
  let m := maskOverlaysForNavigation { s with pageNumber := p } "page-change"
  ⟨m.1, m.2 ++ sendRendererCommand m.1 (RendererOutboundCommand.SET_PAGE p), none⟩

/-- `setScale`: clamp to `max(0.1, scale)`, mask, send `SET_SCALE`. -/
def setScale (x : ℚ) (s : ControllerState) : OpResult :=
  let sc : ℚ := max (1 / 10) x
  let m := maskOverlaysForNavigation { s with scale := sc } "scale-change"
  ⟨m.1, m.2 ++ sendRendererCommand m.1 (RendererOutboundCommand.SET_SCALE sc), none⟩

/-- JavaScript `Boolean(value)` on a `FieldValue` (used by
`toggleCheckbox` when no explicit next value is supplied): the empty
string, `false` and `null` are falsy. -/
def fieldValueTruthy : FieldValue → Bool
  | FieldValue.str s => s ≠ ""
  | FieldValue.bool b => b
  | FieldValue.null => false

/-- `saveText`: resolve the field (throwing if absent), require a local
path, mark dirty and mask, write through the persistence port, update the
in-memory value, and run the refresh cycle. Failures set the error status
and re-raise, keeping mutations already made. -/
def saveText (env : ControllerEnv) (fieldName value : String) (s : ControllerState) : OpResult :=
  match mustFindField s fieldName with
  | none =>
    ⟨{ s with status := some "Error saving text" }, [],
      some (ControllerError.fieldNotFound fieldName)⟩
  | some field =>
    match s.localPath with
    | none =>
      ⟨{ s with status := some "Error saving text" }, [], some ControllerError.noLocalPath⟩
    | some path =>
      let s1 := { s with status := some "Saving text…", isDirty := true, overlaysVisible := false }
      let effs := [ControllerEffect.gateMaskOverlays "save-text",
                   ControllerEffect.writerWriteText path field value]
      match env.writeOk with
      | Except.error _ =>
        ⟨{ s1 with status := some "Error saving text" }, effs, some ControllerError.persistenceError⟩
      | Except.ok _ =>
        let s2 := { s1 with fields := s1.fields.map (fun f =>
          if f.name = fieldName then { f with value := FieldValue.str value } else f) }
        let r := refreshRendererAfterSave s2
        ⟨{ r.1 with status := some "Saved" }, effs ++ r.2, none⟩

/-- `toggleCheckbox`: like `saveText`, with the next value defaulting to
the negation of the current value's truthiness; the master/child domain
hook is a no-op in the source. -/
def toggleCheckbox (env : ControllerEnv) (fieldName : String) (nextValue : Option Bool)
    (s : ControllerState) : OpResult :=
  match mustFindField s fieldName with
  | none =>
    ⟨{ s with status := some "Error saving checkbox" }, [],
      some (ControllerError.fieldNotFound fieldName)⟩
  | some field =>
    match s.localPath with
    | none =>
      ⟨{ s with status := some "Error saving checkbox" }, [], some ControllerError.noLocalPath⟩
    | some path =>
      let v := match nextValue with
        | some b => b
        | none => !(fieldValueTruthy field.value)
      let s1 := { s with status := some "Saving checkbox…", isDirty := true, overlaysVisible := false }
      let effs := [ControllerEffect.gateMaskOverlays "save-checkbox",
                   ControllerEffect.writerWriteCheckbox path field v]
      match env.writeOk with
      | Except.error _ =>
        ⟨{ s1 with status := some "Error saving checkbox" }, effs,
          some ControllerError.persistenceError⟩
      | Except.ok _ =>
        let s2 := { s1 with fields := s1.fields.map (fun f =>
          if f.name = fieldName then { f with value := FieldValue.bool v } else f) }
        let r := refreshRendererAfterSave s2
        ⟨{ r.1 with status := some "Saved" }, effs ++ r.2, none⟩

/-- `saveSignature`: no field lookup is performed. After a successful
write, values are updated only when `mode === "single"` **and**
`targetFieldName` is truthy (a non-empty string), or for every
signature-typed field when `mode === "all"`. -/
def saveSignature (env : ControllerEnv) (signatureBase64 : String) (mode : SigMode)
    (targetFieldName : Option String) (s : ControllerState) : OpResult :=
  match s.localPath with
  | none =>
    ⟨{ s with status := some "Error saving signature" }, [], some ControllerError.noLocalPath⟩
  | some path =>
    let s1 := { s with status := some "Saving signature…", isDirty := true, overlaysVisible := false }
    let effs := [ControllerEffect.gateMaskOverlays "save-signature",
                 ControllerEffect.writerWriteSignature path signatureBase64 mode targetFieldName]
    match env.writeOk with
    | Except.error _ =>
      ⟨{ s1 with status := some "Error saving signature" }, effs,
        some ControllerError.persistenceError⟩
    | Except.ok _ =>
      let s2 :=
        match mode with
        | SigMode.single =>
          match targetFieldName with
          | some t =>
            if t = "" then s1
            else { s1 with fields := s1.fields.map (fun f =>
              if f.name = t then { f with value := FieldValue.str "SIGNED" } else f) }
          | none => s1
        | SigMode.all =>
          { s1 with fields := s1.fields.map (fun f =>
            if f.type = "PDFSignature" then { f with value := FieldValue.str "SIGNED" } else f) }
      let r := refreshRendererAfterSave s2
      ⟨{ r.1 with status := some "Saved" }, effs ++ r.2, none⟩

/-- The per-field reset `clearForm` applies on success. -/
def clearFieldValue (f : PdfField) : PdfField :=
  if f.type = "PDFCheckBox" then { f with value := FieldValue.bool false }
  else if f.type = "PDFTextField" then { f with value := FieldValue.str "" }
  else if f.type = "PDFSignature" then { f with value := FieldValue.null }
  else { f with value := FieldValue.null }

/-- `clearForm`: require a local path, mark dirty and mask, clear through
the persistence port, then reset every in-memory value type-specifically
and run the refresh cycle. -/
def clearForm (env : ControllerEnv) (s : ControllerState) : OpResult :=
  match s.localPath with
  | none =>
    ⟨{ s with status := some "Error clearing form" }, [], some ControllerError.noLocalPath⟩
  | some path =>
    let s1 := { s with status := some "Clearing form…", isDirty := true, overlaysVisible := false }
    let effs := [ControllerEffect.gateMaskOverlays "clear-form",
                 ControllerEffect.writerClearForm path]
    match env.writeOk with
    | Except.error _ =>
      ⟨{ s1 with status := some "Error clearing form" }, effs,
        some ControllerError.persistenceError⟩
    | Except.ok _ =>
      let s2 := { s1 with fields := s1.fields.map clearFieldValue }
      let r := refreshRendererAfterSave s2
      ⟨{ r.1 with status := some "Cleared" }, effs ++ r.2, none⟩

/-- One event on the session's single logical thread of control: a public
controller call, an inbound renderer message, or the firing of the
refresh timer scheduled by `refreshRendererAfterSave`. -/
inductive ControllerEvent where
  | attachTransport : ControllerEvent
  | openDoc (req : OpenPdfInstanceRequest) : ControllerEvent
  | rendererMsg (parsed : Except Unit Json) : ControllerEvent
  | pageSet (n : ℚ) : ControllerEvent
  | scaleSet (x : ℚ) : ControllerEvent
  | editSaveText (fieldName value : String) : ControllerEvent
  | editToggleCheckbox (fieldName : String) (nextValue : Option Bool) : ControllerEvent
  | editSaveSignature (signatureBase64 : String) (mode : SigMode)
      (targetFieldName : Option String) : ControllerEvent
  | editClearForm : ControllerEvent
  | refreshTimerFired : ControllerEvent

/-- The state after processing one event (each event comes with the
outcomes of the external calls made while processing it). -/
def controllerStep (env : ControllerEnv) (s : ControllerState) : ControllerEvent → ControllerState
  | ControllerEvent.attachTransport => attachRendererTransport s
  | ControllerEvent.openDoc req => (openDocument env req s).state
  | ControllerEvent.rendererMsg p => (onRendererMessage env p s).state
  | ControllerEvent.pageSet n => (setPage n s).state
  | ControllerEvent.scaleSet x => (setScale x s).state
  | ControllerEvent.editSaveText n v => (saveText env n v s).state
  | ControllerEvent.editToggleCheckbox n b => (toggleCheckbox env n b s).state
  | ControllerEvent.editSaveSignature b m t => (saveSignature env b m t s).state
  | ControllerEvent.editClearForm => (clearForm env s).state
  | ControllerEvent.refreshTimerFired => (refreshUnmaskCallback env s).state

/-- Run a whole session trace from a freshly constructed controller. -/
def runTrace (tr : List (ControllerEnv × ControllerEvent)) : ControllerState :=
  tr.foldl (fun s pe => controllerStep pe.1 s pe.2) initialControllerState

/-!  Concrete sessions, environments and message payloads used by the
witnesses and counterexamples below. -/

/-- The literal inbound payload `{"type":"READY"}` after `JSON.parse`. -/
def readyJson : Json := Json.obj [("type", Json.str "READY")]

/-- The literal payload
`{"type":"PDF_DIMENSIONS","width":800,"height":600,"scale":1.5}`. -/
def dimsJson : Json := Json.obj
  [("type", Json.str "PDF_DIMENSIONS"), ("width", Json.num 800),
   ("height", Json.num 600), ("scale", Json.num (3 / 2))]

/-- The literal payload `{"type":"BOGUS"}`. -/
def bogusJson : Json := Json.obj [("type", Json.str "BOGUS")]

/-- The literal payload `{"type":"RENDER_DONE"}`. -/
def renderDoneJson : Json := Json.obj [("type", Json.str "RENDER_DONE")]

/-- The literal payload
`{"type":"PDF_DIMENSIONS","width":{},"height":600,"scale":1}`: its `width`
coerces to `NaN` under `Number(...)`. -/
def nanDimsJson : Json := Json.obj
  [("type", Json.str "PDF_DIMENSIONS"), ("width", Json.obj []),
   ("height", Json.num 600), ("scale", Json.num 1)]

/-- Modelled from the spec: the private `readPdfAsBase64` implementation is
redacted from the repository ("reads PDF bytes -> base64", sent to the
renderer once READY); it is modelled as a successful read returning the
base64 contents of the working copy. -/
def readPdfModelled : String → Except Unit String := fun _ => Except.ok "B64"

/-- A benign environment: the instance manager opens working copy `"p1"`
with empty field lists, reads succeed, the Coordinate Transform returns the
unit pixel rect, writes succeed, and the gate does not grant visibility. -/
def sampleEnv : ControllerEnv where
  openResult := Except.ok ⟨"p1", [], []⟩
  readPdfAsBase64 := readPdfModelled
  toPixelRect := fun _ _ => Except.ok ⟨0, 0, 1, 1⟩
  writeOk := Except.ok ()
  canShowOverlays := false

/-- `sampleEnv` with an overlay gate that currently grants visibility
(per the spec's gate, realizable once a render-done has been observed and
the quiet window has elapsed since the last mask). -/
def envGrant : ControllerEnv := { sampleEnv with canShowOverlays := true }

/-- `sampleEnv` with a failing private base64 read. -/
def envReadFails : ControllerEnv :=
  { sampleEnv with readPdfAsBase64 := fun _ => Except.error () }

/-- `sampleEnv` with a throwing Coordinate Transform port. -/
def envTransformThrows : ControllerEnv :=
  { sampleEnv with toPixelRect := fun _ _ => Except.error () }

/-- `sampleEnv` with a failing instance manager. -/
def envOpenFails : ControllerEnv :=
  { sampleEnv with openResult := Except.error () }

/-- A concrete open request. -/
def openReq : OpenPdfInstanceRequest := ⟨"doc.pdf", 1, "folder"⟩

/-- A text field with value `"x"`, a normalized box, and a rendered box
previously computed against an earlier viewport. -/
def fldText : PdfField :=
  { name := "fullName", type := "PDFTextField", coordinates := [0, 0, 10, 10],
    value := FieldValue.str "x", page := 0,
    relativeCoordinates := some ⟨0, 0, 1, 1⟩,
    scaledCoordinates := some ⟨5, 5, 6, 6⟩ }

/-- A checkbox field with value `true`. -/
def fldCheck : PdfField :=
  { name := "agree", type := "PDFCheckBox", coordinates := [0, 0, 1, 1],
    value := FieldValue.bool true, page := 0 }

/-- A signature field with value `"SIGNED"`. -/
def fldSig : PdfField :=
  { name := "sig", type := "PDFSignature", coordinates := [0, 0, 1, 1],
    value := FieldValue.str "SIGNED", page := 1 }

/-- A field of another kind (radio) with a string value. -/
def fldOther : PdfField :=
  { name := "rad", type := "PDFRadio", coordinates := [0, 0, 1, 1],
    value := FieldValue.str "on", page := 0 }

/-- A session mid-way through a previous open (old document in place),
with a transport attached and the renderer ready. -/
def sessionOpened : ControllerState :=
  { initialControllerState with
      transport := true
      rendererReady := true
      fileName := some "old.pdf"
      localPath := some "old-path" }

/-- A session with a transport attached and a working copy, renderer not
yet ready. -/
def sessionAwaitingReady : ControllerState :=
  { initialControllerState with
      transport := true
      localPath := some "p1" }

/-- A session holding one text field and an adopted viewport. -/
def sessionWithViewport : ControllerState :=
  { initialControllerState with
      viewport := some ⟨some 100, some 200, some 1, none⟩
      fields := [fldText] }

/-- A session with a working copy and one text field. -/
def sessionWithTextField : ControllerState :=
  { initialControllerState with
      localPath := some "p1"
      fields := [fldText] }

/-- A session with a working copy and one field of each kind of interest. -/
def sessionAllKinds : ControllerState :=
  { initialControllerState with
      localPath := some "p1"
      fields := [fldText, fldCheck, fldSig, fldOther] }

/-- A trace that opens a document, then sees two `RENDER_DONE` events (the
gate granting visibility at the second, after its quiet window elapsed),
leaving overlays visible. -/
def traceVisible : List (ControllerEnv × ControllerEvent) :=
  [(sampleEnv, ControllerEvent.openDoc openReq),
   (sampleEnv, ControllerEvent.rendererMsg (Except.ok renderDoneJson)),
   (envGrant, ControllerEvent.rendererMsg (Except.ok renderDoneJson))]

/-- Number of `LOAD_PDF_BASE64` sends among a list of effects. -/
def countLoads (l : List ControllerEffect) : Nat :=
  l.countP (fun e => match e with
    | ControllerEffect.sentToTransport (RendererOutboundCommand.LOAD_PDF_BASE64 _) => true
    | _ => false)

/-- Whether an effect is a persistence-port (field writer) call. -/
def isWriterCall : ControllerEffect → Bool
  | ControllerEffect.writerWriteText _ _ _ => true
  | ControllerEffect.writerWriteCheckbox _ _ _ => true
  | ControllerEffect.writerWriteSignature _ _ _ _ => true
  | ControllerEffect.writerClearForm _ => true
  | _ => false

/-- Whether an effect is a send on the renderer transport. -/
def isTransportSend : ControllerEffect → Bool
  | ControllerEffect.sentToTransport _ => true
  | _ => false

/-!  Helper lemmas on how each operation treats `overlaysVisible`. -/

lemma recompute_overlaysVisible (env : ControllerEnv) (s : ControllerState) :
    (recomputeScaledRectsIfPossible env s).1.overlaysVisible = s.overlaysVisible := by
  unfold recomputeScaledRectsIfPossible
  split
  · rfl
  · split <;> rfl

lemma recompute_localPath (env : ControllerEnv) (s : ControllerState) :
    (recomputeScaledRectsIfPossible env s).1.localPath = s.localPath := by
  unfold recomputeScaledRectsIfPossible
  split
  · rfl
  · split <;> rfl

lemma openDocument_overlaysVisible (env : ControllerEnv) (req : OpenPdfInstanceRequest)
    (s : ControllerState) :
    (openDocument env req s).state.overlaysVisible = s.overlaysVisible := by
  unfold openDocument
  split
  · rfl
  · dsimp only
    split
    · rw [recompute_overlaysVisible]
    · split <;> rw [recompute_overlaysVisible]

lemma saveText_overlaysVisible_true (env : ControllerEnv) (n v : String) (s : ControllerState)
    (h : (saveText env n v s).state.overlaysVisible = true) : s.overlaysVisible = true := by
  unfold saveText at h
  rcases h1 : mustFindField s n with _ | f <;> rw [h1] at h
  · simpa using h
  · rcases h2 : s.localPath with _ | p <;> rw [h2] at h
    · simpa using h
    · rcases h3 : env.writeOk with e | u <;> rw [h3] at h <;>
        simp [refreshRendererAfterSave] at h

lemma toggleCheckbox_overlaysVisible_true (env : ControllerEnv) (n : String) (b : Option Bool)
    (s : ControllerState)
    (h : (toggleCheckbox env n b s).state.overlaysVisible = true) : s.overlaysVisible = true := by
  unfold toggleCheckbox at h
  rcases h1 : mustFindField s n with _ | f <;> rw [h1] at h
  · simpa using h
  · rcases h2 : s.localPath with _ | p <;> rw [h2] at h
    · simpa using h
    · rcases h3 : env.writeOk with e | u <;> rw [h3] at h <;>
        simp [refreshRendererAfterSave] at h

lemma saveSignature_overlaysVisible_true (env : ControllerEnv) (b64 : String) (m : SigMode)
    (t : Option String) (s : ControllerState)
    (h : (saveSignature env b64 m t s).state.overlaysVisible = true) : s.overlaysVisible = true := by
  unfold saveSignature at h
  rcases h2 : s.localPath with _ | p <;> rw [h2] at h
  · simpa using h
  · rcases h3 : env.writeOk with e | u <;> rw [h3] at h
    · simp [refreshRendererAfterSave] at h
    · rcases m with _ | _ <;> rcases t with _ | tn <;>
        simp [refreshRendererAfterSave] at h

lemma clearForm_overlaysVisible_true (env : ControllerEnv) (s : ControllerState)
    (h : (clearForm env s).state.overlaysVisible = true) : s.overlaysVisible = true := by
  unfold clearForm at h
  rcases h2 : s.localPath with _ | p <;> rw [h2] at h
  · simpa using h
  · rcases h3 : env.writeOk with e | u <;> rw [h3] at h <;>
      simp [refreshRendererAfterSave] at h

lemma onRendererMessage_overlaysVisible_true (env : ControllerEnv) (p : Except Unit Json)
    (s : ControllerState)
    (h : (onRendererMessage env p s).state.overlaysVisible = true) :
    s.overlaysVisible = true ∨
      (env.canShowOverlays = true ∧
        (parseRendererInboundMessage p = some RendererInboundMessage.RENDER_DONE ∨
         parseRendererInboundMessage p = some RendererInboundMessage.READY_FOR_OVERLAYS)) := by
  unfold onRendererMessage at h
  split at h
  · exact Or.inl h
  · split at h
    · exact Or.inl h
    · dsimp only at h
      rw [recompute_overlaysVisible] at h
      exact absurd h (by simp)
    · rename_i heq
      exact Or.inr ⟨by simpa using h, Or.inl heq⟩
    · rename_i heq
      exact Or.inr ⟨by simpa using h, Or.inr heq⟩
    · exact Or.inl h

/-- If no field of the list bears name `n`, the per-name update map is the
identity on the list. -/
lemma map_update_eq_self_of_find_none {l : List PdfField} {n : String}
    (g : PdfField → PdfField) (h : l.find? (fun f => f.name = n) = none) :
    l.map (fun f => if f.name = n then g f else f) = l := by
  induction l with
  | nil => rfl
  | cons a tl ih =>
    by_cases ha : a.name = n
    · rw [List.find?_cons_of_pos _ (by simp [ha])] at h
      exact absurd h (by simp)
    · rw [List.find?_cons_of_neg _ (by simp [ha])] at h
      simp [ha, ih h]

/-- C1 counterexample: `openDocument` does not mask. On a session whose
overlays became visible (two `RENDER_DONE` events, the gate granting at
the second), a successful re-`openDocument` completes with
`overlaysVisible` still `true` — the claim's "false immediately after
openDocument completes" fails for re-opens. -/
theorem reopen_leaves_overlays_visible :
    (runTrace traceVisible).overlaysVisible = true ∧
    (openDocument sampleEnv openReq (runTrace traceVisible)).err = none ∧
    (openDocument sampleEnv openReq (runTrace traceVisible)).state.overlaysVisible = true :=
  ⟨rfl, rfl, rfl⟩

/-- C1 (amended): `overlaysVisible` is unchanged by `openDocument` (hence
false after a first open), is false immediately after processing any
`PDF_DIMENSIONS` event, after `setPage`/`setScale`, and after any edit
call that reaches its masking step; and a step can turn it from false to
true only on a `RENDER_DONE` or `READY_FOR_OVERLAYS` message or the
scheduled refresh-complete unmask, and only when the gate grants
visibility. -/
theorem overlay_visibility_transitions (env : ControllerEnv) (s : ControllerState) :
    (∀ req, (openDocument env req s).state.overlaysVisible = s.overlaysVisible) ∧
    (∀ p w h sc rot,
      parseRendererInboundMessage p = some (RendererInboundMessage.PDF_DIMENSIONS w h sc rot) →
      (onRendererMessage env p s).state.overlaysVisible = false) ∧
    (∀ n, (setPage n s).state.overlaysVisible = false) ∧
    (∀ x, (setScale x s).state.overlaysVisible = false) ∧
    (∀ n v f path, mustFindField s n = some f → s.localPath = some path →
      (saveText env n v s).state.overlaysVisible = false) ∧
    (∀ n b f path, mustFindField s n = some f → s.localPath = some path →
      (toggleCheckbox env n b s).state.overlaysVisible = false) ∧
    (∀ b64 m t path, s.localPath = some path →
      (saveSignature env b64 m t s).state.overlaysVisible = false) ∧
    (∀ path, s.localPath = some path → (clearForm env s).state.overlaysVisible = false) ∧
    (∀ e, (controllerStep env s e).overlaysVisible = true →
      s.overlaysVisible = true ∨
        (env.canShowOverlays = true ∧
          (e = ControllerEvent.refreshTimerFired ∨
           ∃ p, e = ControllerEvent.rendererMsg p ∧
             (parseRendererInboundMessage p = some RendererInboundMessage.RENDER_DONE ∨
              parseRendererInboundMessage p = some RendererInboundMessage.READY_FOR_OVERLAYS)))) := by
  refine ⟨fun req => openDocument_overlaysVisible env req s, ?_, fun n => rfl, fun x => rfl,
    ?_, ?_, ?_, ?_, ?_⟩
  · intro p w h sc rot hp
    unfold onRendererMessage
    rw [hp]
    dsimp only
    rw [recompute_overlaysVisible]
  · intro n v f path h1 h2
    unfold saveText
    rw [h1, h2]
    dsimp only
    split <;> rfl
  · intro n b f path h1 h2
    unfold toggleCheckbox
    rw [h1, h2]
    dsimp only
    split <;> rfl
  · intro b64 m t path h2
    unfold saveSignature
    rw [h2]
    dsimp only
    split <;> rfl
  · intro path h2
    unfold clearForm
    rw [h2]
    dsimp only
    split <;> rfl
  · intro e he
    cases e with
    | attachTransport => exact Or.inl he
    | openDoc req =>
      rw [show (controllerStep env s (ControllerEvent.openDoc req)) =
        (openDocument env req s).state from rfl, openDocument_overlaysVisible] at he
      exact Or.inl he
    | rendererMsg p =>
      rcases onRendererMessage_overlaysVisible_true env p s he with h1 | ⟨hc, hd⟩
      · exact Or.inl h1
      · exact Or.inr ⟨hc, Or.inr ⟨p, rfl, hd⟩⟩
    | pageSet n => simp [controllerStep, setPage, maskOverlaysForNavigation] at he
    | scaleSet x => simp [controllerStep, setScale, maskOverlaysForNavigation] at he
    | editSaveText n v => exact Or.inl (saveText_overlaysVisible_true env n v s he)
    | editToggleCheckbox n b => exact Or.inl (toggleCheckbox_overlaysVisible_true env n b s he)
    | editSaveSignature b64 m t =>
      exact Or.inl (saveSignature_overlaysVisible_true env b64 m t s he)
    | editClearForm => exact Or.inl (clearForm_overlaysVisible_true env s he)
    | refreshTimerFired => exact Or.inr ⟨he, Or.inl rfl⟩

/-- C1 witness: the amended theorem applied to a concrete session — a
`saveText` that reaches its masking step leaves overlays masked. -/
theorem overlay_visibility_transitions_witness :
    (saveText sampleEnv "fullName" "Jane Doe" sessionWithTextField).state.overlaysVisible = false :=
  (overlay_visibility_transitions sampleEnv sessionWithTextField).2.2.2.2.1 "fullName" "Jane Doe"
    fldText "p1" rfl rfl

/-- C2: on the literal inbound payload
`{"type":"PDF_DIMENSIONS","width":{},"height":600,"scale":1}` — whose
`width` coerces to `NaN` — the parser produces a `NaN` width, and the
controller, far from rejecting the report, replaces the session viewport
with the `NaN`-containing viewport and recomputes the field's rendered box
against it (the transform result replaces the previous box). -/
theorem nan_dimensions_adopted :
    parseRendererInboundMessage (Except.ok nanDimsJson) =
      some (RendererInboundMessage.PDF_DIMENSIONS none (some 600) (some 1) none) ∧
    (onRendererMessage sampleEnv (Except.ok nanDimsJson) sessionWithTextField).state.viewport =
      some ⟨none, some 600, some 1, none⟩ ∧
    ((onRendererMessage sampleEnv (Except.ok nanDimsJson) sessionWithTextField).state.fields.map
      (fun f => f.scaledCoordinates)) = [some ⟨0, 0, 1, 1⟩] :=
  ⟨rfl, rfl, rfl⟩

/-- C3 counterexample: with the instance manager succeeding but the
renderer-load read failing, `openDocument` fails (the error propagates)
while `fileName`, `localPath` and the field set have already been replaced
— the session is partially populated, not "unchanged plus error status". -/
theorem openDocument_partial_population :
    (openDocument envReadFails openReq sessionOpened).err = some ControllerError.readPdfError ∧
    (openDocument envReadFails openReq sessionOpened).state.localPath = some "p1" ∧
    (openDocument envReadFails openReq sessionOpened).state.fileName = some "doc.pdf" ∧
    sessionOpened.localPath = some "old-path" ∧
    sessionOpened.fileName = some "old.pdf" ∧
    (openDocument envReadFails openReq sessionOpened).state.status =
      some "Error opening document" :=
  ⟨rfl, rfl, rfl, rfl, rfl, rfl⟩

/-- C3 (amended): when the external instance manager's open fails, the
session is left exactly as it was, plus the error status, and the error is
re-raised; when a step after the assignments fails (template store,
coordinate transform, renderer-load read), the already-assigned
`fileName`/`localPath`/field set remain in place alongside the error
status (witnessed by the counterexample). -/
theorem openDocument_failure_atomicity (env : ControllerEnv) (req : OpenPdfInstanceRequest)
    (s : ControllerState) (h : env.openResult = Except.error ()) :
    openDocument env req s =
      ⟨{ s with status := some "Error opening document" }, [], some ControllerError.openError⟩ := by
  unfold openDocument
  rw [h]

/-- C3 witness: the amended theorem at a concrete failing open. -/
theorem openDocument_failure_atomicity_witness :
    openDocument envOpenFails openReq sessionOpened =
      ⟨{ sessionOpened with status := some "Error opening document" }, [],
        some ControllerError.openError⟩ :=
  openDocument_failure_atomicity envOpenFails openReq sessionOpened rfl

/-- C4: with a transport attached, a working copy in place, and the
(spec-modelled) private base64 read succeeding, the first `READY` message
completes the load step by sending one `LOAD_PDF_BASE64` — and a second
`READY` message sends `LOAD_PDF_BASE64` again: the load path has no
idempotence guard, so multiple `READY` events double-send. -/
theorem ready_double_sends_load :
    countLoads (onRendererMessage sampleEnv (Except.ok readyJson) sessionAwaitingReady).effects
      = 1 ∧
    (onRendererMessage sampleEnv (Except.ok readyJson) sessionAwaitingReady).state.rendererReady
      = true ∧
    countLoads (onRendererMessage sampleEnv (Except.ok readyJson)
      (onRendererMessage sampleEnv (Except.ok readyJson) sessionAwaitingReady).state).effects
      = 1 :=
  ⟨rfl, rfl, rfl⟩

/-- C5: when the Coordinate Transform throws during the `PDF_DIMENSIONS`
recomputation, the exception escapes the handler and `this.fields` is
never reassigned: the field keeps the rendered box computed against the
previous viewport (it is not left unset), while the new viewport has
already been adopted. -/
theorem transform_throw_keeps_stale_boxes :
    (onRendererMessage envTransformThrows (Except.ok dimsJson) sessionWithViewport).err =
      some ControllerError.coordTransformError ∧
    (onRendererMessage envTransformThrows (Except.ok dimsJson) sessionWithViewport).state.viewport =
      some ⟨some 800, some 600, some (3 / 2), none⟩ ∧
    (onRendererMessage envTransformThrows (Except.ok dimsJson) sessionWithViewport).state.fields =
      [fldText] ∧
    fldText.scaledCoordinates = some ⟨5, 5, 6, 6⟩ :=
  ⟨rfl, rfl, rfl, rfl⟩

/-- C6 counterexample: `saveSignature` with mode `"single"` and a target
name absent from the Field Store does not raise `FieldNotFoundError`: it
completes without error, invokes the persistence port, and sets the dirty
flag (which was previously clear). -/
theorem saveSignature_missing_target :
    mustFindField sessionWithTextField "ghost" = none ∧
    sessionWithTextField.isDirty = false ∧
    (saveSignature sampleEnv "IMG" SigMode.single (some "ghost") sessionWithTextField).err =
      none ∧
    (saveSignature sampleEnv "IMG" SigMode.single
      (some "ghost") sessionWithTextField).effects.any isWriterCall = true ∧
    (saveSignature sampleEnv "IMG" SigMode.single
      (some "ghost") sessionWithTextField).state.isDirty = true :=
  ⟨rfl, rfl, rfl, rfl, rfl⟩

/-- C6 (amended): `saveText` and `toggleCheckbox` resolve the named field
first: on a missing name they raise `FieldNotFoundError`, make no
persistence call, and leave the session unchanged apart from the error
status. `saveSignature` with mode `"single"` performs no existence check:
on a missing target it completes without error, calls the persistence
port, sets the dirty flag, and leaves the field set unchanged. -/
theorem edit_missing_field_behavior (env : ControllerEnv) (s : ControllerState) :
    (∀ n v, mustFindField s n = none →
      saveText env n v s =
        ⟨{ s with status := some "Error saving text" }, [],
          some (ControllerError.fieldNotFound n)⟩) ∧
    (∀ n b, mustFindField s n = none →
      toggleCheckbox env n b s =
        ⟨{ s with status := some "Error saving checkbox" }, [],
          some (ControllerError.fieldNotFound n)⟩) ∧
    (∀ b64 t path, mustFindField s t = none → s.localPath = some path →
      env.writeOk = Except.ok () →
      (saveSignature env b64 SigMode.single (some t) s).err = none ∧
      (saveSignature env b64 SigMode.single (some t) s).effects.any isWriterCall = true ∧
      (saveSignature env b64 SigMode.single (some t) s).state.isDirty = true ∧
      (saveSignature env b64 SigMode.single (some t) s).state.fields = s.fields) := by
  refine ⟨?_, ?_, ?_⟩
  · intro n v h
    unfold saveText
    rw [h]
  · intro n b h
    unfold toggleCheckbox
    rw [h]
  · intro b64 t path hf hp hw
    unfold saveSignature
    rw [hp, hw]
    dsimp only
    by_cases ht : t = ""
    · simp [ht, refreshRendererAfterSave, isWriterCall]
    · simp [ht, refreshRendererAfterSave, isWriterCall,
        map_update_eq_self_of_find_none _ (by simpa [mustFindField] using hf)]

/-- C6 witness: the amended theorem at a concrete missing field. -/
theorem edit_missing_field_behavior_witness :
    saveText sampleEnv "ghost" "v" sessionWithTextField =
      ⟨{ sessionWithTextField with status := some "Error saving text" }, [],
        some (ControllerError.fieldNotFound "ghost")⟩ :=
  (edit_missing_field_behavior sampleEnv sessionWithTextField).1 "ghost" "v" rfl

/-- C7: the parser's total contract — the literal `READY` payload yields
the `READY` event; the literal `PDF_DIMENSIONS` payload yields width 800,
height 600, scale 1.5 with rotation undefined; `{"type":"BOGUS"}`,
unparseable input, and every payload lacking a string `type` or carrying
an unrecognized `type` yield no event (never an error). -/
theorem parse_inbound_total_contract :
    parseRendererInboundMessage (Except.ok readyJson) = some RendererInboundMessage.READY ∧
    parseRendererInboundMessage (Except.ok dimsJson) =
      some (RendererInboundMessage.PDF_DIMENSIONS (some 800) (some 600) (some (3 / 2)) none) ∧
    parseRendererInboundMessage (Except.ok bogusJson) = none ∧
    parseRendererInboundMessage (Except.error ()) = none ∧
    (∀ data : Json, hasStringType data = false →
      parseRendererInboundMessage (Except.ok data) = none) ∧
    (∀ (data : Json) (t : String), jsGet data "type" = some (Json.str t) →
      recognizedType t = false → parseRendererInboundMessage (Except.ok data) = none) := by
  refine ⟨rfl, rfl, rfl, rfl, ?_, ?_⟩
  · intro data h
    by_cases hf : jsFalsy data = true
    · simp [parseRendererInboundMessage, hf]
    · rcases hg : jsGet data "type" with _ | j
      · simp [parseRendererInboundMessage, hf, hg]
      · rcases j with _ | b | q | st | kvs
        · simp [parseRendererInboundMessage, hf, hg]
        · simp [parseRendererInboundMessage, hf, hg]
        · simp [parseRendererInboundMessage, hf, hg]
        · simp [hasStringType, hf, hg] at h
        · simp [parseRendererInboundMessage, hf, hg]
  · intro data t hg hr
    by_cases hf : jsFalsy data = true
    · simp [parseRendererInboundMessage, hf]
    · simp only [recognizedType, Bool.or_eq_false_iff, decide_eq_false_iff_not] at hr
      obtain ⟨⟨⟨⟨h1, h2⟩, h3⟩, h4⟩, h5⟩ := hr
      simp [parseRendererInboundMessage, hf, hg, h1, h2, h3, h4, h5]

/-- C7 witness: the unrecognized-payload arm of the contract at the
concrete non-object payload `5`. -/
theorem parse_inbound_total_contract_witness :
    parseRendererInboundMessage (Except.ok (Json.num 5)) = none :=
  parse_inbound_total_contract.2.2.2.2.1 (Json.num 5) rfl

/-- C8: a successful `clearForm` on a session holding the text field
(value `"x"`), the checkbox (value `true`), the signature (value
`"SIGNED"`) and a radio field resets their values to `""`, `false`,
`null` and `null` respectively, leaving every field's name, type, page and
coordinate boxes unchanged (only `value` is updated). -/
theorem clearForm_values_reset (env : ControllerEnv) (s : ControllerState) (path : String)
    (hp : s.localPath = some path) (hw : env.writeOk = Except.ok ())
    (hf : s.fields = [fldText, fldCheck, fldSig, fldOther]) :
    (clearForm env s).err = none ∧
    (clearForm env s).state.fields =
      [{ fldText with value := FieldValue.str "" },
       { fldCheck with value := FieldValue.bool false },
       { fldSig with value := FieldValue.null },
       { fldOther with value := FieldValue.null }] := by
  unfold clearForm
  rw [hp, hw]
  dsimp only
  refine ⟨rfl, ?_⟩
  show ({ s with
    status := some "Clearing form…", isDirty := true,
    overlaysVisible := false } : ControllerState).fields.map clearFieldValue = _
  rw [show ({ s with
    status := some "Clearing form…", isDirty := true,
    overlaysVisible := false } : ControllerState).fields = s.fields from rfl, hf]
  simp [clearFieldValue, fldText, fldCheck, fldSig, fldOther]

/-- C8 witness: the theorem at the concrete all-kinds session. -/
theorem clearForm_values_reset_witness :
    (clearForm sampleEnv sessionAllKinds).err = none ∧
    (clearForm sampleEnv sessionAllKinds).state.fields =
      [{ fldText with value := FieldValue.str "" },
       { fldCheck with value := FieldValue.bool false },
       { fldSig with value := FieldValue.null },
       { fldOther with value := FieldValue.null }] :=
  clearForm_values_reset sampleEnv sessionAllKinds "p1" rfl rfl rfl

/-- C9: a successful `saveSignature` with mode `"single"` and no
`targetFieldName` leaves every field (in particular every value)
unchanged, even though the persistence port is invoked, the dirty flag is
set, and overlays are masked. -/
theorem saveSignature_single_no_target (env : ControllerEnv) (s : ControllerState)
    (b64 path : String) (hp : s.localPath = some path) (hw : env.writeOk = Except.ok ()) :
    (saveSignature env b64 SigMode.single none s).err = none ∧
    (saveSignature env b64 SigMode.single none s).state.fields = s.fields ∧
    (saveSignature env b64 SigMode.single none s).state.isDirty = true ∧
    (saveSignature env b64 SigMode.single none s).state.overlaysVisible = false ∧
    (saveSignature env b64 SigMode.single none s).effects.any isWriterCall = true := by
  unfold saveSignature
  rw [hp, hw]
  dsimp only
  refine ⟨rfl, rfl, rfl, rfl, ?_⟩
  simp [refreshRendererAfterSave, isWriterCall]

/-- C9 witness: the theorem at a concrete session. -/
theorem saveSignature_single_no_target_witness :
    (saveSignature sampleEnv "IMG" SigMode.single none sessionAllKinds).err = none ∧
    (saveSignature sampleEnv "IMG" SigMode.single none sessionAllKinds).state.fields =
      sessionAllKinds.fields ∧
    (saveSignature sampleEnv "IMG" SigMode.single none sessionAllKinds).state.isDirty = true ∧
    (saveSignature sampleEnv "IMG" SigMode.single
      none sessionAllKinds).state.overlaysVisible = false ∧
    (saveSignature sampleEnv "IMG" SigMode.single
      none sessionAllKinds).effects.any isWriterCall = true :=
  saveSignature_single_no_target sampleEnv sessionAllKinds "IMG" "p1" rfl rfl

/-- C10: with no transport attached, outbound sends are silently dropped
(`sendRendererCommand` posts nothing, the load step is a no-op without
error) while the corresponding session-state updates still take effect:
`setPage`/`setScale` clamp and store the page and scale and mask overlays
without sending, and a successful `saveText` still updates the field value
— all without any transport send and without error. -/
theorem transportless_operations_safe (env : ControllerEnv) (s : ControllerState)
    (h : s.transport = false) :
    (∀ cmd, sendRendererCommand s cmd = []) ∧
    loadIntoRenderer env s = ([], none) ∧
    (∀ n, (setPage n s).err = none ∧
      (setPage n s).state.pageNumber = max 1 (⌊n⌋ : ℚ) ∧
      (setPage n s).state.overlaysVisible = false ∧
      (setPage n s).effects.any isTransportSend = false) ∧
    (∀ x, (setScale x s).err = none ∧
      (setScale x s).state.scale = max (1 / 10) x ∧
      (setScale x s).state.overlaysVisible = false ∧
      (setScale x s).effects.any isTransportSend = false) ∧
    (∀ n v f path, mustFindField s n = some f → s.localPath = some path →
      env.writeOk = Except.ok () →
      (saveText env n v s).err = none ∧
      (saveText env n v s).state.fields = s.fields.map (fun fl =>
        if fl.name = n then { fl with value := FieldValue.str v } else fl) ∧
      (saveText env n v s).effects.any isTransportSend = false) := by
  refine ⟨?_, ?_, ?_, ?_, ?_⟩
  · intro cmd
    simp [sendRendererCommand, h]
  · simp [loadIntoRenderer, h]
  · intro n
    refine ⟨rfl, rfl, rfl, ?_⟩
    simp [setPage, maskOverlaysForNavigation, sendRendererCommand, h, isTransportSend]
  · intro x
    refine ⟨rfl, rfl, rfl, ?_⟩
    simp [setScale, maskOverlaysForNavigation, sendRendererCommand, h, isTransportSend]
  · intro n v f path h1 h2 hw
    unfold saveText
    rw [h1, h2, hw]
    dsimp only
    refine ⟨rfl, rfl, ?_⟩
    simp [refreshRendererAfterSave, isTransportSend]

/-- C10 witness: the theorem on a fresh controller (no transport). -/
theorem transportless_operations_safe_witness :
    sendRendererCommand initialControllerState (RendererOutboundCommand.SET_PAGE 2) = [] :=
  (transportless_operations_safe sampleEnv initialControllerState rfl).1
    (RendererOutboundCommand.SET_PAGE 2)

end PdfEditor
